import Mathlib

/-!
A shallow embedding of the identity, session, ownership-authorization and
listing/review subsystem of the YelpCamp repository.

Sources embedded:
- `src/models/user.js` (User schema, pre-save username derivation)
- `src/routes/users.js` (register, login success handler, logout)
- `src/routes/campgrounds.js` (create/update/delete handlers, the
  `campgrounds.json` feed and its `escapeHtml` helper)
- the `isLoggedIn` / `isAuthor` middleware (end of `src/unnamed/part_002`)

Identifiers are modelled as `Nat` (Mongo ObjectIds are opaque identifiers;
only equality is used by the code). The Mongo store is a `Store` value; the
per-request session record is a `SessionData` value. Handlers are pure
functions from store/session/request data to the updated store/session plus
the HTTP response decision.
-/

namespace YelpCamp

/-- An attached asset reference: Cloudinary `{url, filename}` pair
(`filename` is the deletion handle). -/
structure Image where
  url : String
  filename : String
deriving Repr, DecidableEq

/-- A Listing (campground document). `author` is the owning Principal
reference; it is `Option` because the repair scripts admit author-less
documents as a transitional state. `reviews` is the ordered sequence of
dependent Review identifiers. -/
structure Campground where
  id : Nat
  title : String
  location : String
  description : String
  price : Nat
  images : List Image
  geometry : Option (Int × Int)
  author : Option Nat
  reviews : List Nat
deriving Repr, DecidableEq

/-- A Review document: rating, body, owning Principal, parent Listing. -/
structure Review where
  id : Nat
  rating : Nat
  body : String
  author : Nat
  campground : Nat
deriving Repr, DecidableEq

/-- A Principal (User document from `src/models/user.js`): unique login
handle `email`, optional display handle `username`, salted secret hash. -/
structure User where
  id : Nat
  email : String
  username : Option String
  hash : String
deriving Repr, DecidableEq

/-- The single durable Mongo store. `nextId` models the allocator of fresh
document identifiers. -/
structure Store where
  users : List User
  campgrounds : List Campground
  reviews : List Review
  nextId : Nat
deriving Repr, DecidableEq

/-- The per-request session record: the captured post-login redirect target
(`returnTo`) and the bound principal (`user`, set by passport). -/
structure SessionData where
  returnTo : Option String
  user : Option Nat
deriving Repr, DecidableEq

/-- The response decision of a middleware or handler: pass the request on
(`next`), redirect with a one-shot flash notice (category `success` or
`error`), or fall through to the error handler (`next(err)`). -/
inductive Response where
  | next : Response
  | redirect (path : String) (category : String) (message : String) : Response
  | error : Response
deriving Repr, DecidableEq

/-- `Campground.findById`: look a Listing up in the store by identifier. -/
def findCampground (st : Store) (id : Nat) : Option Campground :=
  st.campgrounds.find? (fun c => c.id == id)

/-- The `isLoggedIn` middleware (end of `src/unnamed/part_002`): if a
principal is attached, proceed; otherwise capture the attempted URL in
`session.returnTo` and redirect to `/login` with an error flash. -/
def isLoggedIn (u : Option Nat) (originalUrl : String) (sess : SessionData) :
    Response × SessionData :=
  match u with
  | some _ => (Response.next, sess)
  | none =>
    (Response.redirect "/login" "error" "You must be signed in to access that page.",
     { sess with returnTo := some originalUrl })

/-- The `isAuthor` middleware (end of `src/unnamed/part_002`): loads the
targeted Listing; missing Listing redirects to the collection index; a
request whose principal is absent or differs from the Listing author
redirects to the Listing show page with the permission-denied flash. A
present principal with an author-less Listing throws (the JS dereferences
`campground.author.toString()`), caught as `next(err)`. -/
def isAuthor (st : Store) (u : Option Nat) (id : Nat) : Response :=
  match findCampground st id with
  | none => Response.redirect "/campgrounds" "error" "Campground not found."
  | some cg =>
    match u with
    | none =>
      Response.redirect ("/campgrounds/" ++ toString id) "error"
        "You do not have permission to do that."
    | some uid =>
      match cg.author with
      | none => Response.error
      | some a =>
        if a = uid then Response.next
        else
          Response.redirect ("/campgrounds/" ++ toString id) "error"
            "You do not have permission to do that."

/-- The `campground` object of a request body: each field optional, exactly
as form data may or may not carry it. `author` models a client-spoofed
owner field. -/
structure CampInput where
  title : Option String
  location : Option String
  description : Option String
  price : Option Nat
  author : Option Nat
deriving Repr, DecidableEq

/-- Mongoose document construction `new Campground(campData)`: absent
fields take schema defaults; a client-supplied `author` is cast into the
document. -/
def newCampground (newId : Nat) (inp : CampInput) : Campground :=
  { id := newId
    title := inp.title.getD ""
    location := inp.location.getD ""
    description := inp.description.getD ""
    price := inp.price.getD 0
    images := []
    geometry := none
    author := inp.author
    reviews := [] }

/-- Mongoose `findByIdAndUpdate(id, body)` semantics: `$set` of exactly the
paths present in the update document; `_id` is immutable. -/
def applyUpdate (cg : Campground) (inp : CampInput) : Campground :=
  { cg with
    title := inp.title.getD cg.title
    location := inp.location.getD cg.location
    description := inp.description.getD cg.description
    price := inp.price.getD cg.price
    author :=
      match inp.author with
      | some a => some a
      | none => cg.author }

/-- The outcome of a non-delete route: updated store, updated session, and
the response decision. -/
structure RouteOutcome where
  store : Store
  session : SessionData
  response : Response
deriving Repr, DecidableEq

/-- The outcome of the Listing delete route, additionally recording the
deletion calls issued to the external asset store (one deletion handle per
call). -/
structure DeleteOutcome where
  store : Store
  session : SessionData
  response : Response
  assetCalls : List String
deriving Repr, DecidableEq

/-- `POST /campgrounds` (`src/routes/campgrounds.js` lines 56-68):
`isLoggedIn`, then build the document from the request body and overwrite
`campground.author` with the authenticated principal before saving. -/
def routePostCampground (st : Store) (sess : SessionData) (u : Option Nat)
    (url : String) (inp : CampInput) : RouteOutcome :=
  match isLoggedIn u url sess with
  | (Response.next, sess1) =>
    match u with
    | some uid =>
      let cg := { newCampground st.nextId inp with author := some uid }
      { store := { st with campgrounds := st.campgrounds ++ [cg], nextId := st.nextId + 1 }
        session := sess1
        response :=
          Response.redirect ("/campgrounds/" ++ toString st.nextId) "success"
            "Successfully created a new campground!" }
    | none => { store := st, session := sess1, response := Response.error }
  | (r, sess1) => { store := st, session := sess1, response := r }

/-- `PUT /campgrounds/:id` (`src/routes/campgrounds.js` lines 85-94):
`isLoggedIn`, `isAuthor`, then `findByIdAndUpdate` with the raw request
body; a vanished Listing makes `updated._id` throw (`next(err)`). -/
def routePutCampground (st : Store) (sess : SessionData) (u : Option Nat)
    (url : String) (id : Nat) (inp : CampInput) : RouteOutcome :=
  match isLoggedIn u url sess with
  | (Response.next, sess1) =>
    match isAuthor st u id with
    | Response.next =>
      match findCampground st id with
      | some _ =>
        { store :=
            { st with
              campgrounds :=
                st.campgrounds.map (fun c => if c.id == id then applyUpdate c inp else c) }
          session := sess1
          response :=
            Response.redirect ("/campgrounds/" ++ toString id) "success"
              "Successfully updated campground!" }
      | none => { store := st, session := sess1, response := Response.error }
    | r => { store := st, session := sess1, response := r }
  | (r, sess1) => { store := st, session := sess1, response := r }

/-- Modelled from the spec: the cascading deletion triggered by
`Campground.findByIdAndDelete` — the `findOneAndDelete` hook lives in
`models/campground.js`, which is not under `src/`; only its caller
`router.delete` in `src/routes/campgrounds.js` is. Per the spec (section
4.5): remove every Review whose parent is this Listing, request deletion of
every attached Asset from the external store (best-effort, one call per
asset, issued whether or not it succeeds), then remove the Listing record
itself. -/
def cascadeDelete (st : Store) (cg : Campground) : Store × List String :=
  ({ st with
      reviews := st.reviews.filter (fun r => !(r.campground == cg.id))
      campgrounds := st.campgrounds.filter (fun c => !(c.id == cg.id)) },
   cg.images.map Image.filename)

/-- `DELETE /campgrounds/:id` (`src/routes/campgrounds.js` lines 97-105):
`isLoggedIn`, `isAuthor`, then `findByIdAndDelete` (which fires the cascade
hook when the document exists), flash, redirect to the index. -/
def routeDeleteCampground (st : Store) (sess : SessionData) (u : Option Nat)
    (url : String) (id : Nat) : DeleteOutcome :=
  match isLoggedIn u url sess with
  | (Response.next, sess1) =>
    match isAuthor st u id with
    | Response.next =>
      match findCampground st id with
      | some cg =>
        let out := cascadeDelete st cg
        { store := out.1
          session := sess1
          response := Response.redirect "/campgrounds" "success" "Campground deleted."
          assetCalls := out.2 }
      | none =>
        { store := st
          session := sess1
          response := Response.redirect "/campgrounds" "success" "Campground deleted."
          assetCalls := [] }
    | r => { store := st, session := sess1, response := r, assetCalls := [] }
  | (r, sess1) => { store := st, session := sess1, response := r, assetCalls := [] }

/-- The local part of the login handle: `email.split(Char.ofNat 64)[0]`,
i.e. the substring before the first at-sign. -/
def localPart (s : String) : String :=
  String.mk (s.data.takeWhile (fun c => !(c == Char.ofNat 64)))

/-- The `pre(save)` hook of `src/models/user.js`: when no username is set
and the email is non-empty (truthy), derive the username from the email's
local part. There is no collision check. -/
def preSaveUsername (u : User) : User :=
  if u.username = none ∧ u.email ≠ "" then
    { u with username := some (localPart u.email) }
  else u

/-- The salted one-way hash of `passport-local-mongoose` `setPassword`
(external library): modelled as an abstract encoding of the secret; only
the fact that a hash is stored matters to the claims. -/
def hashPw (pw : String) : String := "pbkdf2" ++ pw

/-- `User.register` of `passport-local-mongoose` with `usernameField:
email` plus the unique index on `email`: atomically fail when a user with
the given login handle already exists, otherwise hash the secret and save
the document (firing the `pre(save)` hook). -/
def register (st : Store) (email pw : String) : Except String Store :=
  if st.users.any (fun x => x.email == email) then
    Except.error "A user with the given username is already registered"
  else
    Except.ok
      { st with
        users := st.users ++ [preSaveUsername { id := st.nextId, email := email, username := none, hash := hashPw pw }]
        nextId := st.nextId + 1 }

/-- `POST /register` (`src/routes/users.js` lines 24-36): `User.register`,
then log the fresh principal in and redirect to the index; on failure flash
the error message and redirect back to the registration form with the
store untouched. -/
def routeRegister (st : Store) (sess : SessionData) (email pw : String) : RouteOutcome :=
  match register st email pw with
  | Except.ok st1 =>
    { store := st1
      session := { sess with user := some st.nextId }
      response := Response.redirect "/campgrounds" "success" "Welcome! You are now registered." }
  | Except.error m =>
    { store := st, session := sess, response := Response.redirect "/register" "error" m }

/-- The `POST /login` success handler (`src/routes/users.js` lines 48-59):
redirect to `session.returnTo` when captured, else to `/campgrounds`, and
delete `session.returnTo` (read-once); passport has bound the principal to
the session. -/
def routeLoginSuccess (sess : SessionData) (uid : Nat) : SessionData × Response :=
  ({ sess with returnTo := none, user := some uid },
   Response.redirect (sess.returnTo.getD "/campgrounds") "success" "Welcome back!")

/-- The server-side session store: token-keyed records binding a principal.
`session.destroy` removes the record for the token; a missing record is a
no-op (connect-mongo `deleteOne`). -/
def destroySession (ss : List (String × Nat)) (token : String) : List (String × Nat) :=
  ss.filter (fun p => !(p.1 == token))

/-- Session resolution: the store lookup performed for each request;
a destroyed or unknown token yields `none`. -/
def resolveSession (ss : List (String × Nat)) (token : String) : Option Nat :=
  (ss.find? (fun p => p.1 == token)).map Prod.snd

/-- `GET /logout` (`src/routes/users.js` lines 62-73): `req.logout`, then
`req.session.destroy`, clear the cookie, flash, redirect to the index. -/
def routeLogout (ss : List (String × Nat)) (token : String) :
    List (String × Nat) × Response :=
  (destroySession ss token,
   Response.redirect "/campgrounds" "success" "You have been logged out.")

/-- The body of a review creation request. -/
structure ReviewInput where
  rating : Nat
  body : String
deriving Repr, DecidableEq

/-- Modelled from the spec: the Joi review validation (`schemas.js` and the
`validateReview` middleware are not under `src/`). Per the spec (section
4.6): `1 <= rating <= 5` and non-empty body, checked before any
persistence. -/
def validateReview (inp : ReviewInput) : Bool :=
  decide (1 ≤ inp.rating) && decide (inp.rating ≤ 5) && !(inp.body == "")

/-- Modelled from the spec: the review creation route
(`src/routes/reviews.js`, `models/review.js` and its controller are not
under `src/`). Per the spec (section 4.6): validate first (a validation
failure is reported immediately with no aggregate mutated), then create the
Review against an existing parent Listing and append the new Review's
identifier to the parent's review sequence in the same unit of work. -/
def routePostReview (st : Store) (uid : Nat) (cgId : Nat) (inp : ReviewInput) :
    Store × Response :=
  if validateReview inp then
    match findCampground st cgId with
    | none => (st, Response.redirect "/campgrounds" "error" "Campground not found.")
    | some _ =>
      let rid := st.nextId
      let rv : Review := { id := rid, rating := inp.rating, body := inp.body, author := uid, campground := cgId }
      ({ st with
          reviews := st.reviews ++ [rv]
          campgrounds :=
            st.campgrounds.map
              (fun c => if c.id == cgId then { c with reviews := c.reviews ++ [rid] } else c)
          nextId := st.nextId + 1 },
       Response.redirect ("/campgrounds/" ++ toString cgId) "success" "Created new review!")
  else (st, Response.error)

/-- One single-character `replaceAll`: every occurrence of `c` in the text
is replaced by the string `r`. -/
def replaceAllChar (c : Char) (r : List Char) (s : List Char) : List Char :=
  s.flatMap (fun x => if x = c then r else [x])

/-- The five sequential `replaceAll` calls of `escapeHtml`
(`src/routes/campgrounds.js` lines 46-53), on the character list. -/
def escapeChars (l : List Char) : List Char :=
  replaceAllChar (Char.ofNat 39) ("&#39;".data)
    (replaceAllChar (Char.ofNat 34) ("&quot;".data)
      (replaceAllChar (Char.ofNat 62) ("&gt;".data)
        (replaceAllChar (Char.ofNat 60) ("&lt;".data)
          (replaceAllChar (Char.ofNat 38) ("&amp;".data) l))))

/-- `escapeHtml` (`src/routes/campgrounds.js` lines 46-53): sequentially
replace every ampersand, angle bracket, double quote and apostrophe with
its HTML entity. -/
def escapeHtml (s : String) : String :=
  String.mk (escapeChars s.data)

/-- The per-character entity substitution the spec describes: each of the
five special characters becomes its HTML entity, every other character is
kept. -/
def escChar (c : Char) : List Char :=
  if c = Char.ofNat 38 then "&amp;".data
  else if c = Char.ofNat 60 then "&lt;".data
  else if c = Char.ofNat 62 then "&gt;".data
  else if c = Char.ofNat 34 then "&quot;".data
  else if c = Char.ofNat 39 then "&#39;".data
  else [c]

/-- The simultaneous, character-wise escape: the specification-level
reading of `escapeHtml`. -/
def specEscapeHtml (s : String) : String :=
  String.mk (s.data.flatMap escChar)

/-- One entry of the machine-readable listings feed. -/
structure FeedEntry where
  entryId : Nat
  title : String
  location : String
  geometry : Option (Int × Int)
  popupText : String
deriving Repr, DecidableEq

/-- `GET /campgrounds.json` (`src/routes/campgrounds.js` lines 27-43): map
every stored Listing to a small payload whose `popupText` wraps the escaped
title and escaped location in fixed markup. -/
def campgroundsJson (st : Store) : List FeedEntry :=
  st.campgrounds.map (fun cg =>
    { entryId := cg.id
      title := cg.title
      location := cg.location
      geometry := cg.geometry
      popupText :=
        "<strong>" ++ escapeHtml cg.title ++ "</strong><br>" ++ escapeHtml cg.location })

/-! Concrete fixtures used by the witness theorems. -/

/-- A concrete Listing owned by principal 1, with two reviews and two
attached assets. -/
def sampleCg : Campground :=
  { id := 0, title := "Auth Test Camp", location := "Testville",
    description := "Created by test script", price := 10,
    images := [{ url := "http:a", filename := "f1" }, { url := "http:b", filename := "f2" }],
    geometry := none, author := some 1, reviews := [3, 4] }

/-- A concrete store: two principals, one Listing, two Reviews. -/
def sampleStore : Store :=
  { users :=
      [{ id := 1, email := "a@x.com", username := some "a", hash := "h1" },
       { id := 2, email := "b@x.com", username := some "b", hash := "h2" }],
    campgrounds := [sampleCg],
    reviews :=
      [{ id := 3, rating := 4, body := "nice", author := 2, campground := 0 },
       { id := 4, rating := 5, body := "good", author := 2, campground := 0 }],
    nextId := 5 }

/-- A fresh anonymous session. -/
def sess0 : SessionData := { returnTo := none, user := none }

/-- A request body carrying no fields. -/
def emptyInput : CampInput :=
  { title := none, location := none, description := none, price := none, author := none }

/-! Helper lemmas. -/

/-- Mapping a key-preserving per-match transformation across a list
commutes with `find?` by that key. -/
theorem find_map_key (l : List Campground) (id : Nat) (g : Campground → Campground)
    (hg : ∀ c, (g c).id = c.id) :
    (l.map (fun c => if c.id == id then g c else c)).find? (fun c => c.id == id)
      = (l.find? (fun c => c.id == id)).map g := by
  induction l with
  | nil => rfl
  | cons c t ih =>
    by_cases hp : c.id = id
    · simp [List.find?_cons, hp, hg, -List.find?_map]
    · simp only [beq_iff_eq] at ih
      simp [List.find?_cons, hp, hg, ih, -List.find?_map]

/-- Counting with `p` after filtering with its negation yields zero. -/
theorem countP_filter_not {α : Type} (l : List α) (p : α → Bool) :
    (l.filter (fun a => !(p a))).countP p = 0 := by
  induction l with
  | nil => rfl
  | cons a t ih =>
    by_cases h : p a
    · simp [List.filter_cons, h, ih]
    · simp [List.filter_cons, List.countP_cons, h, ih]

/-- Filtering twice with the same predicate equals filtering once. -/
theorem filter_idem {α : Type} (l : List α) (p : α → Bool) :
    (l.filter p).filter p = l.filter p := by
  induction l with
  | nil => rfl
  | cons a t ih =>
    by_cases h : p a
    · simp [List.filter_cons, h, ih]
    · simp [List.filter_cons, h, ih]

/-- Searching with `p` after filtering with its negation finds nothing. -/
theorem find_filter_not {α : Type} (l : List α) (p : α → Bool) :
    (l.filter (fun a => !(p a))).find? p = none := by
  induction l with
  | nil => rfl
  | cons a t ih =>
    by_cases h : p a
    · simp [List.filter_cons, h, ih]
    · simp [List.filter_cons, List.find?_cons, h, ih]

/-! Claim theorems. -/

/-- C1: for every mutating request (update or delete) on an existing
Listing made by an authenticated Principal other than the owner, the
ownership guard redirects to that Listing's show page with the
permission-denied notice and the store is unchanged (no aggregate is
mutated, no asset-store call is issued); made by the creating Principal,
the guard passes the request through. -/
theorem C1_ownership_guard (st : Store) (sess : SessionData) (u o id : Nat)
    (url : String) (inp : CampInput) (cg : Campground)
    (hfind : findCampground st id = some cg) (hown : cg.author = some o) :
    (u ≠ o →
      routePutCampground st sess (some u) url id inp =
        { store := st, session := sess,
          response := Response.redirect ("/campgrounds/" ++ toString id) "error"
            "You do not have permission to do that." } ∧
      routeDeleteCampground st sess (some u) url id =
        { store := st, session := sess,
          response := Response.redirect ("/campgrounds/" ++ toString id) "error"
            "You do not have permission to do that.",
          assetCalls := [] }) ∧
    isAuthor st (some o) id = Response.next := by
  constructor
  · intro hne
    have hne2 : ¬ (o = u) := fun h => hne h.symm
    have hia : isAuthor st (some u) id =
        Response.redirect ("/campgrounds/" ++ toString id) "error"
          "You do not have permission to do that." := by
      simp [isAuthor, hfind, hown, hne2]
    constructor
    · simp [routePutCampground, isLoggedIn, hia]
    · simp [routeDeleteCampground, isLoggedIn, hia]
  · simp [isAuthor, hfind, hown]

/-- Witness for C1 at a concrete store: principal 2 is not the owner of
Listing 0 (owned by principal 1). -/
theorem C1_ownership_guard_witness :
    (findCampground sampleStore 0 = some sampleCg ∧ sampleCg.author = some 1) ∧
    ((2 ≠ 1 →
      routePutCampground sampleStore sess0 (some 2) "/campgrounds/0" 0 emptyInput =
        { store := sampleStore, session := sess0,
          response := Response.redirect ("/campgrounds/" ++ toString 0) "error"
            "You do not have permission to do that." } ∧
      routeDeleteCampground sampleStore sess0 (some 2) "/campgrounds/0" 0 =
        { store := sampleStore, session := sess0,
          response := Response.redirect ("/campgrounds/" ++ toString 0) "error"
            "You do not have permission to do that.",
          assetCalls := [] }) ∧
    isAuthor sampleStore (some 1) 0 = Response.next) :=
  ⟨⟨by decide, by decide⟩,
   C1_ownership_guard sampleStore sess0 2 1 0 "/campgrounds/0" emptyInput sampleCg
     (by decide) (by decide)⟩

/-- C2: a create by an authenticated Principal stores that Principal as
the owner for every request body, including bodies carrying a
client-supplied author field; two creates differing only in the
client-supplied author yield the same stored owner. -/
theorem C2_create_stamps_owner (st : Store) (sess : SessionData) (uid : Nat)
    (url : String) (inp : CampInput) (a1 a2 : Option Nat) :
    ((routePostCampground st sess (some uid) url { inp with author := a1 }).store.campgrounds.getLast?).map Campground.author
      = some (some uid) ∧
    ((routePostCampground st sess (some uid) url { inp with author := a1 }).store.campgrounds.getLast?).map Campground.author
      = ((routePostCampground st sess (some uid) url { inp with author := a2 }).store.campgrounds.getLast?).map Campground.author := by
  constructor
  · simp [routePostCampground, isLoggedIn, List.getLast?_concat]
  · simp [routePostCampground, isLoggedIn, List.getLast?_concat]

/-- C3: deleting a Listing with N dependent Reviews and M attached assets
leaves zero Review records whose parent reference is that Listing's
identifier and issues exactly M deletion calls to the external asset store
(the calls are issued regardless of their success, which is outside the
store). -/
theorem C3_cascade_delete (st : Store) (sess : SessionData) (u id : Nat)
    (url : String) (cg : Campground) (N M : Nat)
    (hfind : findCampground st id = some cg) (hown : cg.author = some u)
    (_hN : st.reviews.countP (fun r => r.campground == id) = N)
    (hM : cg.images.length = M) :
    (routeDeleteCampground st sess (some u) url id).store.reviews.countP
        (fun r => r.campground == id) = 0 ∧
    (routeDeleteCampground st sess (some u) url id).assetCalls.length = M := by
  have hia : isAuthor st (some u) id = Response.next := by
    simp [isAuthor, hfind, hown]
  have h' : st.campgrounds.find? (fun c => c.id == id) = some cg := hfind
  have hcgid : cg.id = id := by simpa using List.find?_some h'
  constructor
  · simp only [routeDeleteCampground, isLoggedIn, hia, hfind, cascadeDelete]
    rw [hcgid]
    exact countP_filter_not st.reviews (fun r => r.campground == id)
  · simp [routeDeleteCampground, isLoggedIn, hia, hfind, cascadeDelete, hM]

/-- Witness for C3: deleting Listing 0 of the sample store (2 reviews, 2
assets) as its owner, principal 1. -/
theorem C3_cascade_delete_witness :
    (findCampground sampleStore 0 = some sampleCg ∧ sampleCg.author = some 1 ∧
      sampleStore.reviews.countP (fun r => r.campground == 0) = 2 ∧
      sampleCg.images.length = 2) ∧
    ((routeDeleteCampground sampleStore sess0 (some 1) "/campgrounds/0" 0).store.reviews.countP
        (fun r => r.campground == 0) = 0 ∧
    (routeDeleteCampground sampleStore sess0 (some 1) "/campgrounds/0" 0).assetCalls.length = 2) :=
  ⟨⟨by decide, by decide, by decide, by decide⟩,
   C3_cascade_delete sampleStore sess0 1 0 "/campgrounds/0" sampleCg 2 2
     (by decide) (by decide) (by decide) (by decide)⟩

/-- The email of a saved user document is untouched by the `pre(save)`
hook. -/
theorem preSave_email (u : User) : (preSaveUsername u).email = u.email := by
  unfold preSaveUsername
  split <;> rfl

/-- C4: with no Principal holding login handle `e`, the first registration
for `e` succeeds (redirecting to the index) and creates exactly one record
with that handle; a second registration with the same handle fails with the
duplicate-handle error and leaves the store exactly as it was (no partial
record). -/
theorem C4_register_duplicate_handle (st : Store) (sess sess2 : SessionData)
    (e pw pw2 : String)
    (h : st.users.countP (fun x => x.email == e) = 0) :
    (routeRegister st sess e pw).response =
      Response.redirect "/campgrounds" "success" "Welcome! You are now registered." ∧
    (routeRegister st sess e pw).store.users.countP (fun x => x.email == e) = 1 ∧
    (routeRegister st sess e pw).store.users.length = st.users.length + 1 ∧
    routeRegister (routeRegister st sess e pw).store sess2 e pw2 =
      { store := (routeRegister st sess e pw).store, session := sess2,
        response := Response.redirect "/register" "error"
          "A user with the given username is already registered" } := by
  have hnone : ∀ x ∈ st.users, ¬ (x.email == e) = true := List.countP_eq_zero.mp h
  have hany : (st.users.any fun x => x.email == e) = false := by
    rw [List.any_eq_false]
    intro x hx
    exact hnone x hx
  have hreg : routeRegister st sess e pw =
      { store :=
          { st with
            users := st.users ++
              [preSaveUsername { id := st.nextId, email := e, username := none, hash := hashPw pw }]
            nextId := st.nextId + 1 }
        session := { sess with user := some st.nextId }
        response := Response.redirect "/campgrounds" "success" "Welcome! You are now registered." } := by
    simp [routeRegister, register, hany]
  refine ⟨by rw [hreg], ?_, by rw [hreg]; simp, ?_⟩
  · rw [hreg]
    simp [List.countP_append, h, List.countP_cons, preSave_email]
  · have hmem :
        preSaveUsername { id := st.nextId, email := e, username := none, hash := hashPw pw } ∈
          (routeRegister st sess e pw).store.users := by
      rw [hreg]
      exact List.mem_append_right _ (List.mem_singleton.mpr rfl)
    have hany2 : ((routeRegister st sess e pw).store.users.any fun x => x.email == e) = true := by
      rw [List.any_eq_true]
      exact ⟨_, hmem, by simp [preSave_email]⟩
    obtain ⟨st1, hst1⟩ : ∃ st1, (routeRegister st sess e pw).store = st1 := ⟨_, rfl⟩
    rw [hst1] at hany2
    rw [hst1]
    simp only [routeRegister, register, hany2]
    simp

/-- Witness for C4: registering `c@x.com` (absent from the sample store)
succeeds once and fails the second time. -/
theorem C4_register_duplicate_handle_witness :
    (sampleStore.users.countP (fun x => x.email == "c@x.com") = 0) ∧
    ((routeRegister sampleStore sess0 "c@x.com" "pw").response =
      Response.redirect "/campgrounds" "success" "Welcome! You are now registered." ∧
    (routeRegister sampleStore sess0 "c@x.com" "pw").store.users.countP
        (fun x => x.email == "c@x.com") = 1 ∧
    (routeRegister sampleStore sess0 "c@x.com" "pw").store.users.length =
        sampleStore.users.length + 1 ∧
    routeRegister (routeRegister sampleStore sess0 "c@x.com" "pw").store sess0 "c@x.com" "pw2" =
      { store := (routeRegister sampleStore sess0 "c@x.com" "pw").store, session := sess0,
        response := Response.redirect "/register" "error"
          "A user with the given username is already registered" }) :=
  ⟨by decide,
   C4_register_duplicate_handle sampleStore sess0 sess0 "c@x.com" "pw" "pw2" (by decide)⟩

/-- C5 counterexample: the owner (principal 1) updates Listing 0 with a
request body that carries an author field naming principal 2; the stored
owner reference changes from principal 1 to principal 2, so the claim that
updates never alter the owner reference fails on the code. -/
theorem C5_counterexample :
    (findCampground sampleStore 0).map Campground.author = some (some 1) ∧
    (findCampground
        (routePutCampground sampleStore sess0 (some 1) "/campgrounds/0" 0
          { emptyInput with author := some 2 }).store 0).map Campground.author
      = some (some 2) ∧
    (some (some 2) : Option (Option Nat)) ≠ some (some 1) := by
  refine ⟨by decide, by decide, by decide⟩

/-- C5 amended: for every update of a Listing by its owner whose update
input does not supply an author field, the stored owner reference after the
update equals the owner reference before the update, for every combination
of the remaining fields. -/
theorem C5_update_keeps_owner (st : Store) (sess : SessionData) (uid : Nat)
    (url : String) (id : Nat) (inp : CampInput) (cg : Campground)
    (hfind : findCampground st id = some cg) (hown : cg.author = some uid)
    (hnoauth : inp.author = none) :
    (findCampground (routePutCampground st sess (some uid) url id inp).store id).map
        Campground.author = some cg.author := by
  have hia : isAuthor st (some uid) id = Response.next := by
    simp [isAuthor, hfind, hown]
  simp only [routePutCampground, isLoggedIn, hia, hfind]
  unfold findCampground
  rw [find_map_key st.campgrounds id (fun c => applyUpdate c inp) (fun c => rfl)]
  rw [show st.campgrounds.find? (fun c => c.id == id) = some cg from hfind]
  simp [applyUpdate, hnoauth]

/-- Witness for the amended C5: the owner edits the title only; the owner
reference is preserved. -/
theorem C5_update_keeps_owner_witness :
    (findCampground sampleStore 0 = some sampleCg ∧ sampleCg.author = some 1 ∧
      ({ emptyInput with title := some "T2" } : CampInput).author = none) ∧
    (findCampground
        (routePutCampground sampleStore sess0 (some 1) "/campgrounds/0" 0
          { emptyInput with title := some "T2" }).store 0).map Campground.author
      = some sampleCg.author :=
  ⟨⟨by decide, by decide, by decide⟩,
   C5_update_keeps_owner sampleStore sess0 1 "/campgrounds/0" 0
     { emptyInput with title := some "T2" } sampleCg (by decide) (by decide) (by decide)⟩

/-- C6: an anonymous request to a protected path P redirects to the login
page after capturing P as the session's return target; the next successful
login redirects to P and removes the return target (read-once); a
successful login with no captured target redirects to the listings
index. -/
theorem C6_return_target (sess : SessionData) (path : String) (uid : Nat) :
    isLoggedIn none path sess =
      (Response.redirect "/login" "error" "You must be signed in to access that page.",
       { sess with returnTo := some path }) ∧
    routeLoginSuccess (isLoggedIn none path sess).2 uid =
      ({ sess with returnTo := none, user := some uid },
       Response.redirect path "success" "Welcome back!") ∧
    routeLoginSuccess { sess with returnTo := none } uid =
      ({ sess with returnTo := none, user := some uid },
       Response.redirect "/campgrounds" "success" "Welcome back!") := by
  refine ⟨rfl, ?_, rfl⟩
  simp [isLoggedIn, routeLoginSuccess]

/-- C7: a Review create with rating 6 is rejected with no record created
and no aggregate mutated; a create with rating 3 and a non-empty body
persists a Review whose fresh identifier appears exactly once in the parent
Listing's review sequence and is retrievable. -/
theorem C7_review_validation (st : Store) (uid cgId : Nat) (b b6 : String)
    (cg : Campground)
    (hfind : findCampground st cgId = some cg)
    (hfresh : st.nextId ∉ cg.reviews)
    (hb : b ≠ "") :
    routePostReview st uid cgId { rating := 6, body := b6 } = (st, Response.error) ∧
    ((findCampground (routePostReview st uid cgId { rating := 3, body := b }).1 cgId).map
        (fun c => c.reviews.count st.nextId)) = some 1 ∧
    (∃ rv ∈ (routePostReview st uid cgId { rating := 3, body := b }).1.reviews,
      rv.id = st.nextId ∧ rv.rating = 3 ∧ rv.body = b) := by
  have hval : validateReview { rating := 3, body := b } = true := by
    simp [validateReview, hb]
  have hcount : cg.reviews.count st.nextId = 0 := List.count_eq_zero.mpr hfresh
  refine ⟨?_, ?_, ?_⟩
  · simp [routePostReview, validateReview]
  · simp only [routePostReview, hval, if_true, hfind]
    unfold findCampground
    rw [find_map_key st.campgrounds cgId
      (fun c => { c with reviews := c.reviews ++ [st.nextId] }) (fun c => rfl)]
    rw [show st.campgrounds.find? (fun c => c.id == cgId) = some cg from hfind]
    simp [List.count_append, hcount]
  · refine ⟨{ id := st.nextId, rating := 3, body := b, author := uid, campground := cgId }, ?_, rfl, rfl, rfl⟩
    simp only [routePostReview, hval, if_true, hfind]
    exact List.mem_append_right _ (List.mem_singleton.mpr rfl)

/-- Witness for C7: reviews against Listing 0 of the sample store (fresh
review identifier 5). -/
theorem C7_review_validation_witness :
    (findCampground sampleStore 0 = some sampleCg ∧ (5 : Nat) ∉ sampleCg.reviews ∧
      "lovely" ≠ "") ∧
    (routePostReview sampleStore 2 0 { rating := 6, body := "meh" } =
      (sampleStore, Response.error) ∧
    ((findCampground (routePostReview sampleStore 2 0 { rating := 3, body := "lovely" }).1 0).map
        (fun c => c.reviews.count sampleStore.nextId)) = some 1 ∧
    (∃ rv ∈ (routePostReview sampleStore 2 0 { rating := 3, body := "lovely" }).1.reviews,
      rv.id = sampleStore.nextId ∧ rv.rating = 3 ∧ rv.body = "lovely")) :=
  ⟨⟨by decide, by decide, by decide⟩,
   C7_review_validation sampleStore 2 0 "lovely" "meh" sampleCg
     (by decide) (by decide) (by decide)⟩

/-- C8 counterexample: principal `a@x.com` already holds the display handle
`a`; registering `a@y.com` (whose derived handle is also `a`) succeeds and
stores the duplicate handle `a` instead of leaving the display handle
unset, refuting the claim that the collision leaves it unset. -/
theorem C8_counterexample :
    sampleStore.users.countP (fun x => x.username == some "a") = 1 ∧
    ((routeRegister sampleStore sess0 "a@y.com" "pw").store.users.getLast?).map User.username
      = some (some "a") ∧
    (routeRegister sampleStore sess0 "a@y.com" "pw").response =
      Response.redirect "/campgrounds" "success" "Welcome! You are now registered." ∧
    (some (some "a") : Option (Option String)) ≠ some none := by
  refine ⟨by decide, by decide, by decide, by decide⟩

/-- C8 amended: a registration that supplies no display handle stores, as
display handle, the substring of the login handle before its first at-sign,
and succeeds — even when that derived value already belongs to an existing
Principal, in which case the duplicate derived value is stored rather than
the handle being left unset. -/
theorem C8_derived_username (st : Store) (sess : SessionData) (e pw : String)
    (hfresh : st.users.countP (fun x => x.email == e) = 0) (he : e ≠ "") :
    ((routeRegister st sess e pw).store.users.getLast?).map User.username
      = some (some (localPart e)) ∧
    (routeRegister st sess e pw).response =
      Response.redirect "/campgrounds" "success" "Welcome! You are now registered." := by
  have hnone := List.countP_eq_zero.mp hfresh
  have hany : (st.users.any fun x => x.email == e) = false := by
    rw [List.any_eq_false]
    intro x hx
    exact hnone x hx
  constructor
  · simp [routeRegister, register, hany, List.getLast?_concat, preSaveUsername, he]
  · simp [routeRegister, register, hany]

/-- Witness for the amended C8: registering `a@y.com` derives display
handle `a`, which collides with an existing Principal's handle, and the
registration still succeeds storing `a`. -/
theorem C8_derived_username_witness :
    (sampleStore.users.countP (fun x => x.email == "a@y.com") = 0 ∧ "a@y.com" ≠ "") ∧
    (((routeRegister sampleStore sess0 "a@y.com" "pw").store.users.getLast?).map User.username
        = some (some (localPart "a@y.com")) ∧
     (routeRegister sampleStore sess0 "a@y.com" "pw").response =
        Response.redirect "/campgrounds" "success" "Welcome! You are now registered.") :=
  ⟨⟨by decide, by decide⟩,
   C8_derived_username sampleStore sess0 "a@y.com" "pw" (by decide) (by decide)⟩

/-- C9: session destruction is idempotent — destroying the same token twice
leaves the store exactly as one destruction does, the second logout request
still succeeds with the normal redirect (no error), and resolving the token
returns none after either call. -/
theorem C9_destroy_idempotent (ss : List (String × Nat)) (t : String) :
    destroySession (destroySession ss t) t = destroySession ss t ∧
    resolveSession (destroySession ss t) t = none ∧
    resolveSession (destroySession (destroySession ss t) t) t = none ∧
    routeLogout (routeLogout ss t).1 t =
      ((routeLogout ss t).1,
       Response.redirect "/campgrounds" "success" "You have been logged out.") := by
  have h1 := filter_idem ss (fun p => !(p.1 == t))
  refine ⟨h1, ?_, ?_, ?_⟩
  · simp [resolveSession, destroySession, find_filter_not]
  · simp [resolveSession, destroySession, find_filter_not]
  · simp only [routeLogout, destroySession, h1]

/-- Splitting the text splits its escape. -/
theorem escapeChars_append (a b : List Char) :
    escapeChars (a ++ b) = escapeChars a ++ escapeChars b := by
  simp [escapeChars, replaceAllChar, List.flatMap_append]

/-- On a single character, the five sequential replacements act exactly as
the per-character entity substitution. -/
theorem escapeChars_singleton (c : Char) : escapeChars [c] = escChar c := by
  by_cases h1 : c = Char.ofNat 38
  · subst h1; decide
  by_cases h2 : c = Char.ofNat 60
  · subst h2; decide
  by_cases h3 : c = Char.ofNat 62
  · subst h3; decide
  by_cases h4 : c = Char.ofNat 34
  · subst h4; decide
  by_cases h5 : c = Char.ofNat 39
  · subst h5; decide
  · simp [escapeChars, replaceAllChar, escChar, h1, h2, h3, h4, h5]

/-- The sequential `replaceAll` chain of the source equals the simultaneous
per-character entity substitution of the spec. -/
theorem escapeChars_eq_flatMap (l : List Char) : escapeChars l = l.flatMap escChar := by
  induction l with
  | nil => rfl
  | cons c t ih =>
    have hsplit : c :: t = [c] ++ t := rfl
    rw [hsplit, escapeChars_append, escapeChars_singleton, ih, List.flatMap_append]
    simp

/-- No escaped character expands to text containing a raw angle bracket,
double quote or apostrophe. -/
theorem escChar_no_raw (a c : Char)
    (hc : c = Char.ofNat 60 ∨ c = Char.ofNat 62 ∨ c = Char.ofNat 34 ∨ c = Char.ofNat 39) :
    ¬ c ∈ escChar a := by
  by_cases h1 : a = Char.ofNat 38
  · subst h1; rcases hc with h | h | h | h <;> subst h <;> decide
  by_cases h2 : a = Char.ofNat 60
  · subst h2; rcases hc with h | h | h | h <;> subst h <;> decide
  by_cases h3 : a = Char.ofNat 62
  · subst h3; rcases hc with h | h | h | h <;> subst h <;> decide
  by_cases h4 : a = Char.ofNat 34
  · subst h4; rcases hc with h | h | h | h <;> subst h <;> decide
  by_cases h5 : a = Char.ofNat 39
  · subst h5; rcases hc with h | h | h | h <;> subst h <;> decide
  · intro hmem
    have ha : escChar a = [a] := by simp [escChar, h1, h2, h3, h4, h5]
    rw [ha] at hmem
    have hca : c = a := List.mem_singleton.mp hmem
    subst hca
    rcases hc with h | h | h | h
    exacts [absurd h h2, absurd h h3, absurd h h4, absurd h h5]

/-- The escaped text contains no raw angle bracket, double quote or
apostrophe at all. -/
theorem escapeHtml_no_raw (s : String) (c : Char)
    (hc : c = Char.ofNat 60 ∨ c = Char.ofNat 62 ∨ c = Char.ofNat 34 ∨ c = Char.ofNat 39) :
    ¬ c ∈ (escapeHtml s).data := by
  intro hmem
  have hm2 : c ∈ s.data.flatMap escChar := by
    simpa [escapeHtml, escapeChars_eq_flatMap] using hmem
  rcases List.mem_flatMap.mp hm2 with ⟨a, _, hma⟩
  exact escChar_no_raw a c hc hma

/-- C10: every entry of the machine-readable listings feed builds its
`popupText` only from escaped copies of a stored Listing's title and
location; the escaping is exactly the per-character entity substitution of
the five special characters (so every special character of listing data is
escaped), and escaped text contains no raw angle bracket, double quote or
apostrophe at all. -/
theorem C10_popup_escaped (st : Store) (e : FeedEntry) (s : String)
    (he : e ∈ campgroundsJson st) :
    (∃ cg, cg ∈ st.campgrounds ∧
       e.popupText =
         "<strong>" ++ escapeHtml cg.title ++ "</strong><br>" ++ escapeHtml cg.location) ∧
    escapeHtml s = specEscapeHtml s ∧
    ¬ Char.ofNat 60 ∈ (escapeHtml s).data ∧
    ¬ Char.ofNat 62 ∈ (escapeHtml s).data ∧
    ¬ Char.ofNat 34 ∈ (escapeHtml s).data ∧
    ¬ Char.ofNat 39 ∈ (escapeHtml s).data := by
  refine ⟨?_, ?_, ?_, ?_, ?_, ?_⟩
  · rcases List.mem_map.mp he with ⟨cg, hcg, hecg⟩
    exact ⟨cg, hcg, by rw [← hecg]⟩
  · rw [escapeHtml, specEscapeHtml, escapeChars_eq_flatMap]
  · exact escapeHtml_no_raw s _ (Or.inl rfl)
  · exact escapeHtml_no_raw s _ (Or.inr (Or.inl rfl))
  · exact escapeHtml_no_raw s _ (Or.inr (Or.inr (Or.inl rfl)))
  · exact escapeHtml_no_raw s _ (Or.inr (Or.inr (Or.inr rfl)))

/-- The feed entry of the sample Listing. -/
def sampleEntry : FeedEntry :=
  { entryId := 0, title := "Auth Test Camp", location := "Testville",
    geometry := none,
    popupText := "<strong>Auth Test Camp</strong><br>Testville" }

/-- Witness for C10 at the sample store and a text containing all five
special characters. -/
theorem C10_popup_escaped_witness :
    (sampleEntry ∈ campgroundsJson sampleStore) ∧
    ((∃ cg, cg ∈ sampleStore.campgrounds ∧
       sampleEntry.popupText =
         "<strong>" ++ escapeHtml cg.title ++ "</strong><br>" ++ escapeHtml cg.location) ∧
    escapeHtml "a<b" = specEscapeHtml "a<b" ∧
    ¬ Char.ofNat 60 ∈ (escapeHtml "a<b").data ∧
    ¬ Char.ofNat 62 ∈ (escapeHtml "a<b").data ∧
    ¬ Char.ofNat 34 ∈ (escapeHtml "a<b").data ∧
    ¬ Char.ofNat 39 ∈ (escapeHtml "a<b").data) :=
  ⟨by decide, C10_popup_escaped sampleStore sampleEntry "a<b" (by decide)⟩

end YelpCamp
